import Mathlib

/-!
Verification of the Alice swap state machine and configuration handling of
the xmr-btc-swap repository, as a shallow embedding in Lean 4.

The embedding models the asynchronous collaborators (Bitcoin wallet, Monero
wallet, peer channel, rate service, database) of a single invocation of
Alice.next_state as an oracle record Env: each field holds the outcome the
corresponding external call would produce during that invocation.  The
transition function nextState is a direct translation of the match in
src/swap/src/protocol/alice/swap.rs, returning the list of external effects
performed (by category) together with the Except-valued successor state.
The driver loop run_until is modelled with explicit fuel and an event trace
recording every successful transition and every persist.
-/

namespace XmrBtcSwap

/-- Opaque payload carried by the setup-phase state3 record. -/
structure State3 where
  tag : Nat
deriving DecidableEq

/-- Opaque Monero transfer proof. -/
structure TransferProof where
  tag : Nat
deriving DecidableEq

/-- Monero block height recorded before locking XMR. -/
structure BlockHeight where
  h : Nat
deriving DecidableEq

/-- Opaque Monero spend key extracted from the refund witness. -/
structure SpendKey where
  tag : Nat
deriving DecidableEq

/-- Opaque encrypted (adaptor) signature received from Bob. -/
structure EncSig where
  tag : Nat
deriving DecidableEq

/-- Opaque Bitcoin transaction. -/
structure Tx where
  tag : Nat
deriving DecidableEq

/-- Errors surfaced by next_state: generic collaborator failures plus the
two bail branches of the redeem path. -/
inductive Err where
  | io (code : Nat)
  | redeemMempoolWaitFailed
  | redeemFinalityWaitFailed
deriving DecidableEq

/-- Result of State3.expired_timelocks: which timelock has expired. -/
inductive ExpiredTimelocks where
  | notExpired
  | cancel
  | punish
deriving DecidableEq

/-- The AliceState variants of src/swap/src/protocol/alice. -/
inductive AliceState where
  | started (state3 : State3)
  | btcLocked (state3 : State3)
  | xmrLockTransactionSent (height : BlockHeight) (proof : TransferProof) (state3 : State3)
  | xmrLocked (height : BlockHeight) (proof : TransferProof) (state3 : State3)
  | xmrLockTransferProofSent (height : BlockHeight) (proof : TransferProof) (state3 : State3)
  | encSigLearned (height : BlockHeight) (proof : TransferProof) (encSig : EncSig) (state3 : State3)
  | btcRedeemTransactionPublished (state3 : State3)
  | cancelTimelockExpired (height : BlockHeight) (proof : TransferProof) (state3 : State3)
  | btcCancelled (height : BlockHeight) (proof : TransferProof) (state3 : State3)
  | btcRefunded (height : BlockHeight) (proof : TransferProof) (key : SpendKey) (state3 : State3)
  | btcPunishable (height : BlockHeight) (proof : TransferProof) (state3 : State3)
  | xmrRefunded
  | btcRedeemed
  | btcPunished
  | safelyAborted
deriving DecidableEq

/-- Category of an external effect performed by next_state: the rate quote
consumed for the log line, a Bitcoin or Monero wallet call, a peer channel
operation, or a database write. -/
inductive Effect where
  | rate (formatted : String)
  | wallet
  | peer
  | db
deriving DecidableEq

/-- Decidable equality for Except values, used to derive decidable equality
of the oracle environment. -/
instance exceptDecEq {eps alpha : Type} [DecidableEq eps] [DecidableEq alpha] :
    DecidableEq (Except eps alpha) := fun a b =>
  match a, b with
  | Except.error e, Except.error f =>
      if h : e = f then Decidable.isTrue (by rw [h])
      else Decidable.isFalse (by intro hc; injection hc; contradiction)
  | Except.error _, Except.ok _ => Decidable.isFalse (by intro hc; exact Except.noConfusion hc)
  | Except.ok _, Except.error _ => Decidable.isFalse (by intro hc; exact Except.noConfusion hc)
  | Except.ok x, Except.ok y =>
      if h : x = y then Decidable.isTrue (by rw [h])
      else Decidable.isFalse (by intro hc; injection hc; contradiction)

/-- Outcome of the unbiased select in the XmrLocked arm: either the peer
send of the transfer proof completed first (with its result), or the cancel
timelock expiry was observed first. -/
inductive XmrLockedSelect where
  | sendProof (result : Except Err Unit)
  | cancelExpired
deriving DecidableEq

/-- Outcome of the unbiased select in the BtcCancelled arm: either TxRefund
was seen first (with the wait result), or the punish timelock expiry on
TxCancel was observed first. -/
inductive BtcCancelledSelect where
  | refundSeen (result : Except Err Unit)
  | punishTimelockExpired
deriving DecidableEq

/-- Oracle for one invocation of next_state: each field is the outcome the
corresponding external call would produce if made during this invocation. -/
structure Env where
  txLockFinal : Option (Except Err Unit)
  expiredTimelocks : Except Err ExpiredTimelocks
  moneroBlockHeight : Except Err BlockHeight
  moneroTransfer : Except Err TransferProof
  watchForTransfer : Except Err Unit
  xmrLockedWinner : XmrLockedSelect
  t1ExpiryReady : Bool
  recvEncSig : Except Err EncSig
  signedRedeemTx : Except Err Tx
  broadcastRedeem : Except Err Unit
  redeemSeen : Except Err Unit
  waitCancelConfirmed : Except Err Unit
  redeemFinal : Except Err Unit
  checkForTxCancel : Except Err Unit
  submitTxCancel : Except Err Unit
  btcCancelledWinner : BtcCancelledSelect
  rawRefundTx : Except Err Tx
  extractKey : Except Err SpendKey
  refundXmr : Except Err Unit
  punishBtc : Except Err Unit
deriving DecidableEq

/-- Format of the rate consumed by the log line at the top of next_state:
the map_or in the source renders an unavailable rate as NaN. -/
def formatRate (r : Option Nat) : String :=
  match r with
  | Option.none => "NaN"
  | Option.some v => toString v

/-- The body of next_state after the rate has been consumed for the log
line: the match over the AliceState variants.  Returns the list of external
effects performed, in order, together with the Except-valued successor
state. -/
def nextStateCore (env : Env) (s : AliceState) : List Effect × Except Err AliceState :=
  match s with
  | AliceState.started state3 =>
      ([Effect.wallet, Effect.wallet],
        match env.txLockFinal with
        | Option.none => Except.ok AliceState.safelyAborted
        | Option.some (Except.error e) => Except.error e
        | Option.some (Except.ok _) => Except.ok (AliceState.btcLocked state3))
  | AliceState.btcLocked state3 =>
      match env.expiredTimelocks with
      | Except.error e => ([Effect.wallet], Except.error e)
      | Except.ok ExpiredTimelocks.notExpired =>
          match env.moneroBlockHeight with
          | Except.error e => ([Effect.wallet, Effect.wallet], Except.error e)
          | Except.ok height =>
              match env.moneroTransfer with
              | Except.error e =>
                  ([Effect.wallet, Effect.wallet, Effect.wallet], Except.error e)
              | Except.ok proof =>
                  ([Effect.wallet, Effect.wallet, Effect.wallet],
                    Except.ok (AliceState.xmrLockTransactionSent height proof state3))
      | Except.ok _ => ([Effect.wallet], Except.ok AliceState.safelyAborted)
  | AliceState.xmrLockTransactionSent height proof state3 =>
      match env.expiredTimelocks with
      | Except.error e => ([Effect.wallet], Except.error e)
      | Except.ok ExpiredTimelocks.notExpired =>
          match env.watchForTransfer with
          | Except.error e => ([Effect.wallet, Effect.wallet], Except.error e)
          | Except.ok _ =>
              ([Effect.wallet, Effect.wallet],
                Except.ok (AliceState.xmrLocked height proof state3))
      | Except.ok _ =>
          ([Effect.wallet],
            Except.ok (AliceState.cancelTimelockExpired height proof state3))
  | AliceState.xmrLocked height proof state3 =>
      match env.xmrLockedWinner with
      | XmrLockedSelect.sendProof (Except.error e) =>
          ([Effect.wallet, Effect.peer], Except.error e)
      | XmrLockedSelect.sendProof (Except.ok _) =>
          ([Effect.wallet, Effect.peer],
            Except.ok (AliceState.xmrLockTransferProofSent height proof state3))
      | XmrLockedSelect.cancelExpired =>
          ([Effect.wallet, Effect.wallet],
            Except.ok (AliceState.cancelTimelockExpired height proof state3))
  | AliceState.xmrLockTransferProofSent height proof state3 =>
      if env.t1ExpiryReady then
        ([Effect.wallet, Effect.wallet],
          Except.ok (AliceState.cancelTimelockExpired height proof state3))
      else
        match env.recvEncSig with
        | Except.error e => ([Effect.wallet, Effect.peer], Except.error e)
        | Except.ok encSig =>
            ([Effect.wallet, Effect.peer],
              Except.ok (AliceState.encSigLearned height proof encSig state3))
  | AliceState.encSigLearned height proof _encSig state3 =>
      match env.expiredTimelocks with
      | Except.error e => ([Effect.wallet], Except.error e)
      | Except.ok ExpiredTimelocks.notExpired =>
          match env.signedRedeemTx with
          | Except.ok _tx =>
              match env.broadcastRedeem with
              | Except.ok _ =>
                  match env.redeemSeen with
                  | Except.ok _ =>
                      ([Effect.wallet, Effect.wallet, Effect.wallet, Effect.wallet],
                        Except.ok (AliceState.btcRedeemTransactionPublished state3))
                  | Except.error _ =>
                      ([Effect.wallet, Effect.wallet, Effect.wallet, Effect.wallet],
                        Except.error Err.redeemMempoolWaitFailed)
              | Except.error _ =>
                  match env.waitCancelConfirmed with
                  | Except.ok _ =>
                      ([Effect.wallet, Effect.wallet, Effect.wallet, Effect.wallet],
                        Except.ok (AliceState.cancelTimelockExpired height proof state3))
                  | Except.error e =>
                      ([Effect.wallet, Effect.wallet, Effect.wallet, Effect.wallet],
                        Except.error e)
          | Except.error _ =>
              match env.waitCancelConfirmed with
              | Except.ok _ =>
                  ([Effect.wallet, Effect.wallet, Effect.wallet],
                    Except.ok (AliceState.cancelTimelockExpired height proof state3))
              | Except.error e =>
                  ([Effect.wallet, Effect.wallet, Effect.wallet], Except.error e)
      | Except.ok _ =>
          ([Effect.wallet],
            Except.ok (AliceState.cancelTimelockExpired height proof state3))
  | AliceState.btcRedeemTransactionPublished _state3 =>
      match env.redeemFinal with
      | Except.ok _ => ([Effect.wallet, Effect.wallet], Except.ok AliceState.btcRedeemed)
      | Except.error _ =>
          ([Effect.wallet, Effect.wallet], Except.error Err.redeemFinalityWaitFailed)
  | AliceState.cancelTimelockExpired height proof state3 =>
      match env.checkForTxCancel with
      | Except.ok _ =>
          ([Effect.wallet],
            Except.ok (AliceState.btcCancelled height proof state3))
      | Except.error _ =>
          ([Effect.wallet, Effect.wallet],
            Except.ok (AliceState.btcCancelled height proof state3))
  | AliceState.btcCancelled height proof state3 =>
      match env.btcCancelledWinner with
      | BtcCancelledSelect.refundSeen (Except.error e) =>
          ([Effect.wallet, Effect.wallet, Effect.wallet], Except.error e)
      | BtcCancelledSelect.refundSeen (Except.ok _) =>
          match env.rawRefundTx with
          | Except.error e =>
              ([Effect.wallet, Effect.wallet, Effect.wallet, Effect.wallet],
                Except.error e)
          | Except.ok _tx =>
              match env.extractKey with
              | Except.error e =>
                  ([Effect.wallet, Effect.wallet, Effect.wallet, Effect.wallet],
                    Except.error e)
              | Except.ok key =>
                  ([Effect.wallet, Effect.wallet, Effect.wallet, Effect.wallet],
                    Except.ok (AliceState.btcRefunded height proof key state3))
      | BtcCancelledSelect.punishTimelockExpired =>
          ([Effect.wallet, Effect.wallet, Effect.wallet],
            Except.ok (AliceState.btcPunishable height proof state3))
  | AliceState.btcRefunded _height _proof _key _state3 =>
      match env.refundXmr with
      | Except.error e => ([Effect.wallet], Except.error e)
      | Except.ok _ => ([Effect.wallet], Except.ok AliceState.xmrRefunded)
  | AliceState.btcPunishable height proof state3 =>
      match env.punishBtc with
      | Except.ok _ => ([Effect.wallet], Except.ok AliceState.btcPunished)
      | Except.error _ =>
          match env.rawRefundTx with
          | Except.error e => ([Effect.wallet, Effect.wallet], Except.error e)
          | Except.ok _tx =>
              match env.extractKey with
              | Except.error e => ([Effect.wallet, Effect.wallet], Except.error e)
              | Except.ok key =>
                  ([Effect.wallet, Effect.wallet],
                    Except.ok (AliceState.btcRefunded height proof key state3))
  | AliceState.xmrRefunded => ([], Except.ok AliceState.xmrRefunded)
  | AliceState.btcRedeemed => ([], Except.ok AliceState.btcRedeemed)
  | AliceState.btcPunished => ([], Except.ok AliceState.btcPunished)
  | AliceState.safelyAborted => ([], Except.ok AliceState.safelyAborted)

/-- Shallow embedding of next_state from src/swap/src/protocol/alice/swap.rs:
the rate is consumed first (map_or into a log string, one rate effect),
then the match over the state variants runs.  The rate service is a
parameter of its own, mirroring the separate rate_service argument of the
source function. -/
def nextState (rate : Option Nat) (env : Env) (s : AliceState) :
    List Effect × Except Err AliceState :=
  (Effect.rate (formatRate rate) :: (nextStateCore env s).1, (nextStateCore env s).2)

/-- Shallow embedding of is_complete from src/swap/src/protocol/alice/swap.rs. -/
def isComplete (s : AliceState) : Bool :=
  match s with
  | AliceState.xmrRefunded => true
  | AliceState.btcRedeemed => true
  | AliceState.btcPunished => true
  | AliceState.safelyAborted => true
  | _ => false

/-- Events of one run_until execution: a successful next_state producing a
state, a failed next_state, a successful insert_latest_state persisting a
state, and a failed insert. -/
inductive Ev where
  | next (s : AliceState)
  | nextErr
  | persist (s : AliceState)
  | persistErr
deriving DecidableEq

/-- Shallow embedding of run_until from src/swap/src/protocol/alice/swap.rs,
with explicit fuel for the while loop.  envs gives the oracle for each
iteration, db the outcome of each insert_latest_state call.  Returns the
event trace together with the final result; the result is none when the
fuel ran out with the loop still running. -/
def runUntilAux (exit : AliceState → Bool) (rates : Nat → Option Nat)
    (envs : Nat → Env) (db : Nat → AliceState → Except Err Unit) :
    Nat → Nat → AliceState → List Ev × Option (Except Err AliceState)
  | 0, _, _ => ([], Option.none)
  | Nat.succ fuel, i, s =>
      if isComplete s || exit s then ([], Option.some (Except.ok s))
      else
        match (nextState (rates i) (envs i) s).2 with
        | Except.error e => ([Ev.nextErr], Option.some (Except.error e))
        | Except.ok next =>
            match db i next with
            | Except.error e =>
                ([Ev.next next, Ev.persistErr], Option.some (Except.error e))
            | Except.ok _ =>
                let rest := runUntilAux exit rates envs db fuel (i + 1) next
                (Ev.next next :: Ev.persist next :: rest.1, rest.2)

/-- The run_until entry point: start the loop at iteration 0. -/
def runUntil (fuel : Nat) (exit : AliceState → Bool) (rates : Nat → Option Nat)
    (envs : Nat → Env) (db : Nat → AliceState → Except Err Unit) (s : AliceState) :
    List Ev × Option (Except Err AliceState) :=
  runUntilAux exit rates envs db fuel 0 s

/-- Shallow embedding of run: run_until with the constantly false early-exit
predicate. -/
def run (fuel : Nat) (rates : Nat → Option Nat) (envs : Nat → Env)
    (db : Nat → AliceState → Except Err Unit) (s : AliceState) :
    List Ev × Option (Except Err AliceState) :=
  runUntil fuel (fun _ => false) rates envs db s

/-- The persist discipline of the driver loop: every successful next_state
is immediately followed by a persist of the very state it produced, before
any further event; a failed next_state ends the trace with an error result
and no persist for that iteration; a failed persist ends the trace with an
error result. -/
inductive GoodTrace : List Ev → Option (Except Err AliceState) → Prop
  | emptyOk (s : AliceState) : GoodTrace [] (Option.some (Except.ok s))
  | emptyFuel : GoodTrace [] Option.none
  | nextFailed (e : Err) : GoodTrace [Ev.nextErr] (Option.some (Except.error e))
  | persistFailed (s : AliceState) (e : Err) :
      GoodTrace [Ev.next s, Ev.persistErr] (Option.some (Except.error e))
  | step (s : AliceState) (tr : List Ev) (r : Option (Except Err AliceState)) :
      GoodTrace tr r → GoodTrace (Ev.next s :: Ev.persist s :: tr) r

/-- A concrete oracle environment used by the closed witness theorems. -/
def envW : Env :=
  { txLockFinal := Option.some (Except.ok ())
  , expiredTimelocks := Except.ok ExpiredTimelocks.notExpired
  , moneroBlockHeight := Except.ok ⟨7⟩
  , moneroTransfer := Except.ok ⟨3⟩
  , watchForTransfer := Except.ok ()
  , xmrLockedWinner := XmrLockedSelect.sendProof (Except.ok ())
  , t1ExpiryReady := false
  , recvEncSig := Except.ok ⟨5⟩
  , signedRedeemTx := Except.ok ⟨9⟩
  , broadcastRedeem := Except.ok ()
  , redeemSeen := Except.ok ()
  , waitCancelConfirmed := Except.ok ()
  , redeemFinal := Except.ok ()
  , checkForTxCancel := Except.ok ()
  , submitTxCancel := Except.ok ()
  , btcCancelledWinner := BtcCancelledSelect.punishTimelockExpired
  , rawRefundTx := Except.ok ⟨11⟩
  , extractKey := Except.ok ⟨13⟩
  , refundXmr := Except.ok ()
  , punishBtc := Except.ok () }

/-- An effect touching the Bitcoin or Monero wallet, the peer channel, or
the database; the rate quote is excluded. -/
def isChainEffect (e : Effect) : Bool :=
  match e with
  | Effect.rate _ => false
  | _ => true

/-- Claim C1: in every iteration of run_until, the state produced by a
successful next_state is persisted immediately, before the next call to
next_state begins; a failing next_state or a failing persist ends the run
with an error and no persist is recorded for that iteration. -/
theorem run_until_persist_discipline (fuel i : Nat) (exit : AliceState → Bool)
    (rates : Nat → Option Nat) (envs : Nat → Env)
    (db : Nat → AliceState → Except Err Unit) (s : AliceState) :
    GoodTrace (runUntilAux exit rates envs db fuel i s).1
      (runUntilAux exit rates envs db fuel i s).2 := by
  induction fuel generalizing i s with
  | zero => exact GoodTrace.emptyFuel
  | succ fuel ih =>
      rw [runUntilAux]
      split
      · exact GoodTrace.emptyOk s
      · split
        · exact GoodTrace.nextFailed _
        · split
          · exact GoodTrace.persistFailed _ _
          · exact GoodTrace.step _ _ _ (ih (i + 1) _)

/-- Claim C3: the four terminal states are absorbing fixed points of
next_state: the transition returns the state itself without error, and the
only effect performed is the rate quote consumed for the log line, no
wallet, peer or database effect. -/
theorem terminal_states_absorbing (rate : Option Nat) (env : Env) :
    (nextState rate env AliceState.xmrRefunded
        = ([Effect.rate (formatRate rate)], Except.ok AliceState.xmrRefunded)) ∧
    (nextState rate env AliceState.btcRedeemed
        = ([Effect.rate (formatRate rate)], Except.ok AliceState.btcRedeemed)) ∧
    (nextState rate env AliceState.btcPunished
        = ([Effect.rate (formatRate rate)], Except.ok AliceState.btcPunished)) ∧
    (nextState rate env AliceState.safelyAborted
        = ([Effect.rate (formatRate rate)], Except.ok AliceState.safelyAborted)) ∧
    ((nextState rate env AliceState.xmrRefunded).1.filter isChainEffect = []) ∧
    ((nextState rate env AliceState.btcRedeemed).1.filter isChainEffect = []) ∧
    ((nextState rate env AliceState.btcPunished).1.filter isChainEffect = []) ∧
    ((nextState rate env AliceState.safelyAborted).1.filter isChainEffect = []) :=
  ⟨rfl, rfl, rfl, rfl, rfl, rfl, rfl, rfl⟩

/-- Claim C8: the rate oracle never influences the state machine: two runs
of next_state that differ only in the outcome of latest_rate, including the
unavailable outcome, produce the same successor state. -/
theorem rate_oracle_noninterference (rate1 rate2 : Option Nat) (env : Env)
    (s : AliceState) :
    (nextState rate1 env s).2 = (nextState rate2 env s).2 := rfl

/-- Helper for C9: a result of Ok st from the driver loop satisfies the
combined completion or early-exit predicate. -/
theorem runUntilAux_ok_complete (fuel : Nat) (exit : AliceState → Bool)
    (rates : Nat → Option Nat) (envs : Nat → Env)
    (db : Nat → AliceState → Except Err Unit) :
    ∀ (i : Nat) (s st : AliceState),
      (runUntilAux exit rates envs db fuel i s).2 = Option.some (Except.ok st) →
      (isComplete st || exit st) = true := by
  induction fuel with
  | zero =>
      intro i s st h
      simp [runUntilAux] at h
  | succ fuel ih =>
      intro i s st h
      rw [runUntilAux] at h
      by_cases hdone : (isComplete s || exit s) = true
      · rw [if_pos hdone] at h
        simp at h
        rw [← h]
        exact hdone
      · rw [if_neg hdone] at h
        rcases hn : (nextState (rates i) (envs i) s).2 with e | next
        · rw [hn] at h
          simp at h
        · rw [hn] at h
          dsimp only at h
          rcases hd : db i next with e | u
          · rw [hd] at h
            simp at h
          · rw [hd] at h
            dsimp only at h
            exact ih (i + 1) next st h

/-- Helper for C9: when the initial state is already complete or matches
the early-exit predicate, the driver loop with positive fuel returns it
unchanged with an empty trace: no next_state call, no persist. -/
theorem runUntilAux_exit_now (fuel i : Nat) (exit : AliceState → Bool)
    (rates : Nat → Option Nat) (envs : Nat → Env)
    (db : Nat → AliceState → Except Err Unit) (s : AliceState)
    (h : (isComplete s || exit s) = true) :
    runUntilAux exit rates envs db (fuel + 1) i s = ([], Option.some (Except.ok s)) := by
  rw [runUntilAux, if_pos h]

/-- Claim C9: whenever run_until returns Ok, the returned state satisfies
is_complete or the early-exit predicate; with the constantly false
early-exit predicate of run the returned state is one of the four terminal
states; and when the initial state already satisfies either predicate the
driver returns it unchanged, with no next_state call and no persist. -/
theorem run_until_returns_complete_or_exit (fuel i : Nat) (exit : AliceState → Bool)
    (rates : Nat → Option Nat) (envs : Nat → Env)
    (db : Nat → AliceState → Except Err Unit) (s st : AliceState)
    (hok : (runUntilAux exit rates envs db fuel i s).2 = Option.some (Except.ok st)) :
    (isComplete st = true ∨ exit st = true) ∧
    ((∀ x, exit x = false) →
      (st = AliceState.xmrRefunded ∨ st = AliceState.btcRedeemed ∨
        st = AliceState.btcPunished ∨ st = AliceState.safelyAborted)) ∧
    ((isComplete s || exit s) = true →
      (runUntilAux exit rates envs db fuel i s).1 = [] ∧ st = s) := by
  have hco := runUntilAux_ok_complete fuel exit rates envs db i s st hok
  refine ⟨Bool.or_eq_true_iff.mp hco, ?_, ?_⟩
  · intro hexit
    have hc : isComplete st = true := by
      rcases Bool.or_eq_true_iff.mp hco with h | h
      · exact h
      · rw [hexit st] at h
        exact absurd h (by simp)
    cases st <;> simp_all [isComplete]
  · intro hs
    cases fuel with
    | zero => simp [runUntilAux] at hok
    | succ fuel =>
        have hr := runUntilAux_exit_now fuel i exit rates envs db s hs
        rw [hr] at hok
        simp at hok
        rw [hr]
        exact ⟨rfl, hok.symm⟩

/-- Closed witness for C9: a one-fuel run from the terminal state
XmrRefunded exits immediately with that state. -/
theorem run_until_returns_complete_or_exit_witness :
    isComplete AliceState.xmrRefunded = true ∨
      (fun _ : AliceState => false) AliceState.xmrRefunded = true :=
  (run_until_returns_complete_or_exit 1 0 (fun _ => false) (fun _ => Option.none)
    (fun _ => envW) (fun _ _ => Except.ok ()) AliceState.xmrRefunded
    AliceState.xmrRefunded (by decide)).1

/-- Oracle reporting the cancel timelock as expired, with every collaborator
call otherwise succeeding on the happy path. -/
def envC2 : Env := { envW with expiredTimelocks := Except.ok ExpiredTimelocks.cancel }

/-- Counterexample to claim C2 as stated: with the chain reporting the
cancel timelock expired, the Started transition still proceeds to BtcLocked
(it checks only the confirmation timeout, never the timelocks), and the
XmrLocked transition can still proceed to XmrLockTransferProofSent (its
select is unbiased, so the peer send may win the race). -/
theorem timelock_domination_counterexample :
    envC2.expiredTimelocks = Except.ok ExpiredTimelocks.cancel ∧
    (nextState (Option.some 1) envC2 (AliceState.started ⟨0⟩)).2
      = Except.ok (AliceState.btcLocked ⟨0⟩) ∧
    AliceState.btcLocked ⟨0⟩ ≠ AliceState.safelyAborted ∧
    (nextState (Option.some 1) envC2 (AliceState.xmrLocked ⟨7⟩ ⟨3⟩ ⟨0⟩)).2
      = Except.ok (AliceState.xmrLockTransferProofSent ⟨7⟩ ⟨3⟩ ⟨0⟩) ∧
    AliceState.xmrLockTransferProofSent ⟨7⟩ ⟨3⟩ ⟨0⟩
      ≠ AliceState.cancelTimelockExpired ⟨7⟩ ⟨3⟩ ⟨0⟩ := by decide

/-- Claim C2 amended: the BtcLocked, XmrLockTransactionSent and
EncSigLearned transitions check expired_timelocks first and take the
timelock branch whenever a timelock is expired, and XmrLockTransferProofSent
polls the timelock branch first; Started checks only a confirmation
timeout, and the XmrLocked and BtcCancelled selects are unbiased. -/
theorem timelock_checks_amended (rate : Option Nat) (env : Env)
    (et : ExpiredTimelocks) (state3 : State3) (height : BlockHeight)
    (proof : TransferProof) (sig : EncSig)
    (hexp : env.expiredTimelocks = Except.ok et)
    (hne : et ≠ ExpiredTimelocks.notExpired) :
    (nextState rate env (AliceState.btcLocked state3)).2
      = Except.ok AliceState.safelyAborted ∧
    (nextState rate env (AliceState.xmrLockTransactionSent height proof state3)).2
      = Except.ok (AliceState.cancelTimelockExpired height proof state3) ∧
    (nextState rate env (AliceState.encSigLearned height proof sig state3)).2
      = Except.ok (AliceState.cancelTimelockExpired height proof state3) ∧
    (env.t1ExpiryReady = true →
      (nextState rate env (AliceState.xmrLockTransferProofSent height proof state3)).2
        = Except.ok (AliceState.cancelTimelockExpired height proof state3)) := by
  have hcases : et = ExpiredTimelocks.cancel ∨ et = ExpiredTimelocks.punish := by
    cases et with
    | notExpired => exact absurd rfl hne
    | cancel => exact Or.inl rfl
    | punish => exact Or.inr rfl
  refine ⟨?_, ?_, ?_, ?_⟩
  · rcases hcases with h | h <;> subst h <;> simp [nextState, nextStateCore, hexp]
  · rcases hcases with h | h <;> subst h <;> simp [nextState, nextStateCore, hexp]
  · rcases hcases with h | h <;> subst h <;> simp [nextState, nextStateCore, hexp]
  · intro ht
    simp [nextState, nextStateCore, ht]

/-- Closed witness for the amended C2, at the oracle reporting the cancel
timelock expired. -/
theorem timelock_checks_amended_witness :
    (nextState (Option.some 1) envC2 (AliceState.btcLocked ⟨0⟩)).2
      = Except.ok AliceState.safelyAborted :=
  (timelock_checks_amended (Option.some 1) envC2 ExpiredTimelocks.cancel
    ⟨0⟩ ⟨7⟩ ⟨3⟩ ⟨5⟩ (by decide) (by decide)).1

/-- Oracle with the cancel timelock expiry future ready in the biased
select of the XmrLockTransferProofSent arm. -/
def envT1 : Env := { envW with t1ExpiryReady := true }

/-- Claim C4: in the XmrLockTransferProofSent transition the biased select
polls the timelock-expiry branch first: whenever that branch is ready the
transition goes to CancelTimelockExpired, and EncSigLearned is reached only
when the timelock expiry was not ready. -/
theorem biased_select_prefers_timelock (rate : Option Nat) (env : Env)
    (height : BlockHeight) (proof : TransferProof) (state3 : State3) :
    (env.t1ExpiryReady = true →
      (nextState rate env (AliceState.xmrLockTransferProofSent height proof state3)).2
        = Except.ok (AliceState.cancelTimelockExpired height proof state3)) ∧
    (∀ (h2 : BlockHeight) (p2 : TransferProof) (sig : EncSig) (s2 : State3),
      (nextState rate env (AliceState.xmrLockTransferProofSent height proof state3)).2
          = Except.ok (AliceState.encSigLearned h2 p2 sig s2) →
      env.t1ExpiryReady = false) := by
  constructor
  · intro ht
    simp [nextState, nextStateCore, ht]
  · intro h2 p2 sig s2 hres
    by_cases ht : env.t1ExpiryReady
    · simp [nextState, nextStateCore, ht] at hres
    · simp [ht]

/-- Closed witness for C4: the timelock branch taken when ready, and an
EncSigLearned outcome implying the expiry was not ready. -/
theorem biased_select_prefers_timelock_witness :
    (nextState (Option.some 1) envT1 (AliceState.xmrLockTransferProofSent ⟨7⟩ ⟨3⟩ ⟨0⟩)).2
      = Except.ok (AliceState.cancelTimelockExpired ⟨7⟩ ⟨3⟩ ⟨0⟩) ∧
    envW.t1ExpiryReady = false :=
  ⟨(biased_select_prefers_timelock (Option.some 1) envT1 ⟨7⟩ ⟨3⟩ ⟨0⟩).1 (by decide),
   (biased_select_prefers_timelock (Option.some 1) envW ⟨7⟩ ⟨3⟩ ⟨0⟩).2
     ⟨7⟩ ⟨3⟩ ⟨5⟩ ⟨0⟩ (by decide)⟩

/-- Claim C5: in the EncSigLearned transition with timelocks unexpired, a
failure to construct the signed redeem transaction, or a failure to
broadcast it, makes Alice wait for the cancel timelock and transition to
CancelTimelockExpired; a failure of the mempool wait after a successful
broadcast makes next_state return an error, producing no successor state. -/
theorem enc_sig_learned_failure_paths (rate : Option Nat) (env : Env)
    (height : BlockHeight) (proof : TransferProof) (sig : EncSig) (state3 : State3)
    (hnone : env.expiredTimelocks = Except.ok ExpiredTimelocks.notExpired) :
    ((∃ e, env.signedRedeemTx = Except.error e) →
      env.waitCancelConfirmed = Except.ok () →
      (nextState rate env (AliceState.encSigLearned height proof sig state3)).2
        = Except.ok (AliceState.cancelTimelockExpired height proof state3)) ∧
    (∀ tx, env.signedRedeemTx = Except.ok tx →
      (∃ e, env.broadcastRedeem = Except.error e) →
      env.waitCancelConfirmed = Except.ok () →
      (nextState rate env (AliceState.encSigLearned height proof sig state3)).2
        = Except.ok (AliceState.cancelTimelockExpired height proof state3)) ∧
    (∀ tx, env.signedRedeemTx = Except.ok tx →
      env.broadcastRedeem = Except.ok () →
      (∃ e, env.redeemSeen = Except.error e) →
      (nextState rate env (AliceState.encSigLearned height proof sig state3)).2
        = Except.error Err.redeemMempoolWaitFailed) := by
  refine ⟨?_, ?_, ?_⟩
  · rintro ⟨e, he⟩ hw
    simp [nextState, nextStateCore, hnone, he, hw]
  · rintro tx htx ⟨e, he⟩ hw
    simp [nextState, nextStateCore, hnone, htx, he, hw]
  · rintro tx htx hb ⟨e, he⟩
    simp [nextState, nextStateCore, hnone, htx, hb, he]

/-- Oracle in which constructing the signed redeem transaction fails. -/
def envSigFail : Env := { envW with signedRedeemTx := Except.error (Err.io 1) }

/-- Oracle in which broadcasting the redeem transaction fails. -/
def envBroadcastFail : Env := { envW with broadcastRedeem := Except.error (Err.io 2) }

/-- Oracle in which the mempool wait after a successful broadcast fails. -/
def envSeenFail : Env := { envW with redeemSeen := Except.error (Err.io 3) }

/-- Closed witness for C5 at the three concrete failing oracles. -/
theorem enc_sig_learned_failure_paths_witness :
    (nextState (Option.some 1) envSigFail (AliceState.encSigLearned ⟨7⟩ ⟨3⟩ ⟨5⟩ ⟨0⟩)).2
      = Except.ok (AliceState.cancelTimelockExpired ⟨7⟩ ⟨3⟩ ⟨0⟩) ∧
    (nextState (Option.some 1) envBroadcastFail (AliceState.encSigLearned ⟨7⟩ ⟨3⟩ ⟨5⟩ ⟨0⟩)).2
      = Except.ok (AliceState.cancelTimelockExpired ⟨7⟩ ⟨3⟩ ⟨0⟩) ∧
    (nextState (Option.some 1) envSeenFail (AliceState.encSigLearned ⟨7⟩ ⟨3⟩ ⟨5⟩ ⟨0⟩)).2
      = Except.error Err.redeemMempoolWaitFailed :=
  ⟨(enc_sig_learned_failure_paths (Option.some 1) envSigFail ⟨7⟩ ⟨3⟩ ⟨5⟩ ⟨0⟩
      (by decide)).1 ⟨Err.io 1, by decide⟩ (by decide),
   (enc_sig_learned_failure_paths (Option.some 1) envBroadcastFail ⟨7⟩ ⟨3⟩ ⟨5⟩ ⟨0⟩
      (by decide)).2.1 ⟨9⟩ (by decide) ⟨Err.io 2, by decide⟩ (by decide),
   (enc_sig_learned_failure_paths (Option.some 1) envSeenFail ⟨7⟩ ⟨3⟩ ⟨5⟩ ⟨0⟩
      (by decide)).2.2 ⟨9⟩ (by decide) (by decide) ⟨Err.io 3, by decide⟩⟩

/-- Claim C6: in the BtcPunishable transition, a successful publish of
TxPunish yields the terminal state BtcPunished; on failure Alice falls back
to fetching the raw TxRefund and extracting the spend key, transitioning to
BtcRefunded; and a failure of the fetch or of the extraction makes
next_state return that error, so no successor state is produced. -/
theorem btc_punishable_paths (rate : Option Nat) (env : Env)
    (height : BlockHeight) (proof : TransferProof) (state3 : State3) :
    (env.punishBtc = Except.ok () →
      (nextState rate env (AliceState.btcPunishable height proof state3)).2
        = Except.ok AliceState.btcPunished) ∧
    (∀ (e : Err) (tx : Tx) (key : SpendKey), env.punishBtc = Except.error e →
      env.rawRefundTx = Except.ok tx → env.extractKey = Except.ok key →
      (nextState rate env (AliceState.btcPunishable height proof state3)).2
        = Except.ok (AliceState.btcRefunded height proof key state3)) ∧
    (∀ (e e2 : Err), env.punishBtc = Except.error e →
      env.rawRefundTx = Except.error e2 →
      (nextState rate env (AliceState.btcPunishable height proof state3)).2
        = Except.error e2) ∧
    (∀ (e : Err) (tx : Tx) (e2 : Err), env.punishBtc = Except.error e →
      env.rawRefundTx = Except.ok tx → env.extractKey = Except.error e2 →
      (nextState rate env (AliceState.btcPunishable height proof state3)).2
        = Except.error e2) := by
  refine ⟨?_, ?_, ?_, ?_⟩
  · intro hp
    simp [nextState, nextStateCore, hp]
  · intro e tx key hp hr hk
    simp [nextState, nextStateCore, hp, hr, hk]
  · intro e e2 hp hr
    simp [nextState, nextStateCore, hp, hr]
  · intro e tx e2 hp hr hk
    simp [nextState, nextStateCore, hp, hr, hk]

/-- Oracle in which publishing TxPunish fails. -/
def envPunishFail : Env := { envW with punishBtc := Except.error (Err.io 4) }

/-- Oracle in which TxPunish fails and fetching the raw TxRefund fails. -/
def envPunishRawFail : Env :=
  { envW with punishBtc := Except.error (Err.io 4)
            , rawRefundTx := Except.error (Err.io 5) }

/-- Oracle in which TxPunish fails and extracting the spend key fails. -/
def envPunishExtractFail : Env :=
  { envW with punishBtc := Except.error (Err.io 4)
            , extractKey := Except.error (Err.io 6) }

/-- Closed witness for C6 at the four concrete oracles. -/
theorem btc_punishable_paths_witness :
    (nextState (Option.some 1) envW (AliceState.btcPunishable ⟨7⟩ ⟨3⟩ ⟨0⟩)).2
      = Except.ok AliceState.btcPunished ∧
    (nextState (Option.some 1) envPunishFail (AliceState.btcPunishable ⟨7⟩ ⟨3⟩ ⟨0⟩)).2
      = Except.ok (AliceState.btcRefunded ⟨7⟩ ⟨3⟩ ⟨13⟩ ⟨0⟩) ∧
    (nextState (Option.some 1) envPunishRawFail (AliceState.btcPunishable ⟨7⟩ ⟨3⟩ ⟨0⟩)).2
      = Except.error (Err.io 5) ∧
    (nextState (Option.some 1) envPunishExtractFail (AliceState.btcPunishable ⟨7⟩ ⟨3⟩ ⟨0⟩)).2
      = Except.error (Err.io 6) :=
  ⟨(btc_punishable_paths (Option.some 1) envW ⟨7⟩ ⟨3⟩ ⟨0⟩).1 (by decide),
   (btc_punishable_paths (Option.some 1) envPunishFail ⟨7⟩ ⟨3⟩ ⟨0⟩).2.1
     (Err.io 4) ⟨11⟩ ⟨13⟩ (by decide) (by decide) (by decide),
   (btc_punishable_paths (Option.some 1) envPunishRawFail ⟨7⟩ ⟨3⟩ ⟨0⟩).2.2.1
     (Err.io 4) (Err.io 5) (by decide) (by decide),
   (btc_punishable_paths (Option.some 1) envPunishExtractFail ⟨7⟩ ⟨3⟩ ⟨0⟩).2.2.2
     (Err.io 4) ⟨11⟩ (Err.io 6) (by decide) (by decide) (by decide)⟩

/-- The refund (cancel) timelock constant of src/swap/src/lib.rs. -/
def REFUND_TIMELOCK : Nat := 10

/-- The punish timelock constant of src/swap/src/lib.rs. -/
def PUNISH_TIMELOCK : Nat := 20

/-- The two protocol timelocks of the execution parameters, as configured
by the test configurations of src/swap/tests/testutils/mod.rs.  The other
execution parameters are irrelevant to the timelock claim and omitted. -/
structure ExecutionParams where
  bitcoin_cancel_timelock : Nat
  bitcoin_punish_timelock : Nat
deriving DecidableEq

/-- SlowCancelConfig of testutils: cancel timelock 180, punish timelock
inherited from the base (Regtest) parameters. -/
def slowCancelConfig (base : ExecutionParams) : ExecutionParams :=
  { base with bitcoin_cancel_timelock := 180 }

/-- FastCancelConfig of testutils: cancel timelock 1, punish timelock
inherited from the base (Regtest) parameters. -/
def fastCancelConfig (base : ExecutionParams) : ExecutionParams :=
  { base with bitcoin_cancel_timelock := 1 }

/-- FastPunishConfig of testutils: both timelocks set to 1. -/
def fastPunishConfig (base : ExecutionParams) : ExecutionParams :=
  { base with bitcoin_cancel_timelock := 1, bitcoin_punish_timelock := 1 }

/-- Counterexample to claim C7 as stated: FastPunishConfig sets both
timelocks to 1, so the cancel timelock is not strictly less than the punish
timelock in that configuration. -/
theorem timelock_ordering_counterexample :
    ¬ ((fastPunishConfig ⟨REFUND_TIMELOCK, PUNISH_TIMELOCK⟩).bitcoin_cancel_timelock
        < (fastPunishConfig ⟨REFUND_TIMELOCK, PUNISH_TIMELOCK⟩).bitcoin_punish_timelock) := by
  decide

/-- Claim C7 amended: the default constants satisfy the strict ordering
REFUND_TIMELOCK < PUNISH_TIMELOCK and are strictly positive, and every
timelock value explicitly set by the test configurations is strictly
positive; in FastPunishConfig, the one test configuration that sets both
timelocks, only the non-strict ordering cancel at most punish holds.
Timelock values inherited from the Regtest base parameters, which live
outside the repository sources, are left unconstrained. -/
theorem timelock_ordering_amended :
    0 < REFUND_TIMELOCK ∧ REFUND_TIMELOCK < PUNISH_TIMELOCK ∧
    (∀ base : ExecutionParams,
      0 < (fastPunishConfig base).bitcoin_cancel_timelock ∧
      0 < (fastPunishConfig base).bitcoin_punish_timelock ∧
      (fastPunishConfig base).bitcoin_cancel_timelock
        ≤ (fastPunishConfig base).bitcoin_punish_timelock) ∧
    (∀ base : ExecutionParams, 0 < (fastCancelConfig base).bitcoin_cancel_timelock) ∧
    (∀ base : ExecutionParams, 0 < (slowCancelConfig base).bitcoin_cancel_timelock) := by
  refine ⟨by decide, by decide, ?_, ?_, ?_⟩
  · intro base
    exact ⟨Nat.one_pos, Nat.one_pos, Nat.le_refl 1⟩
  · intro base
    exact Nat.one_pos
  · intro base
    simp [slowCancelConfig]

/-- The double-quote character delimiting TOML basic strings. -/
def qc : Char := Char.ofNat 34

/-- The backslash character introducing TOML string escapes. -/
def bs : Char := Char.ofNat 92

/-- The newline character. -/
def nl : Char := Char.ofNat 10

/-- The letter n, the escape code for a newline inside a TOML string. -/
def escN : Char := Char.ofNat 110

/-- Escape one character for a TOML basic string: quote, backslash and
newline get a backslash escape, everything else is kept as is. -/
def escapeChar (c : Char) : List Char :=
  if c = qc then [bs, qc]
  else if c = bs then [bs, bs]
  else if c = nl then [bs, escN]
  else [c]

/-- Escape a whole string for a TOML basic string. -/
def escapeStr : List Char → List Char
  | [] => []
  | c :: cs => escapeChar c ++ escapeStr cs

/-- Decode one escape code of a TOML basic string. -/
def unescapeChar (c : Char) : Option Char :=
  if c = qc then Option.some qc
  else if c = bs then Option.some bs
  else if c = escN then Option.some nl
  else Option.none

/-- Read a TOML basic string up to its closing quote, decoding escapes;
returns the decoded string and the remaining input. -/
def parseBasicStr : List Char → Option (List Char × List Char)
  | [] => Option.none
  | c :: rest =>
      if c = qc then Option.some ([], rest)
      else if c = bs then
        match rest with
        | [] => Option.none
        | d :: rest2 =>
            match unescapeChar d with
            | Option.none => Option.none
            | Option.some u =>
                match parseBasicStr rest2 with
                | Option.none => Option.none
                | Option.some sr => Option.some (u :: sr.1, sr.2)
      else
        match parseBasicStr rest with
        | Option.none => Option.none
        | Option.some sr => Option.some (c :: sr.1, sr.2)

/-- Consume an expected literal prefix of the input. -/
def dropLit : List Char → List Char → Option (List Char)
  | [], input => Option.some input
  | c :: lit, input =>
      match input with
      | [] => Option.none
      | d :: input2 => if d = c then dropLit lit input2 else Option.none

theorem bs_ne_qc : (bs = qc) = False := by decide

theorem escN_ne_qc : (escN = qc) = False := by decide

theorem escN_ne_bs : (escN = bs) = False := by decide

theorem unescapeChar_qc : unescapeChar qc = Option.some qc := by decide

theorem unescapeChar_bs : unescapeChar bs = Option.some bs := by decide

theorem unescapeChar_escN : unescapeChar escN = Option.some nl := by decide

/-- One-step equation for parseBasicStr on a cons cell. -/
theorem parseBasicStr_cons (c : Char) (rest : List Char) :
    parseBasicStr (c :: rest) =
      (if c = qc then Option.some ([], rest)
       else if c = bs then
         match rest with
         | [] => Option.none
         | d :: rest2 =>
             match unescapeChar d with
             | Option.none => Option.none
             | Option.some u =>
                 match parseBasicStr rest2 with
                 | Option.none => Option.none
                 | Option.some sr => Option.some (u :: sr.1, sr.2)
       else
         match parseBasicStr rest with
         | Option.none => Option.none
         | Option.some sr => Option.some (c :: sr.1, sr.2)) := by
  conv_lhs => unfold parseBasicStr

/-- Reading back an escaped string consumes exactly the escaped text and
the closing quote and returns the original string. -/
theorem parseBasicStr_escape (s rest : List Char) :
    parseBasicStr (escapeStr s ++ qc :: rest) = Option.some (s, rest) := by
  induction s with
  | nil => simp [escapeStr, parseBasicStr_cons]
  | cons c cs ih =>
      by_cases h1 : c = qc
      · subst h1
        simp [escapeStr, escapeChar, parseBasicStr_cons, bs_ne_qc, unescapeChar_qc, ih]
      · by_cases h2 : c = bs
        · subst h2
          simp [escapeStr, escapeChar, parseBasicStr_cons, bs_ne_qc, unescapeChar_bs, ih]
        · by_cases h3 : c = nl
          · subst h3
            simp [escapeStr, escapeChar, parseBasicStr_cons, bs_ne_qc, escN_ne_qc,
              escN_ne_bs, unescapeChar_escN, ih, h1, h2]
          · simp [escapeStr, escapeChar, parseBasicStr_cons, h1, h2, h3, ih]

/-- Consuming a literal prefix succeeds exactly on that prefix. -/
theorem dropLit_append (lit rest : List Char) :
    dropLit lit (lit ++ rest) = Option.some rest := by
  induction lit with
  | nil => simp [dropLit]
  | cons c cs ih => simp [dropLit, ih]

/-- The data section of the asb config of src/swap/src/asb/config.rs. -/
structure Data where
  dir : List Char
deriving DecidableEq

/-- The network section of the asb config. -/
structure Network where
  listen : List Char
deriving DecidableEq

/-- The bitcoin section of the asb config. -/
structure Bitcoin where
  electrum_rpc_url : List Char
deriving DecidableEq

/-- The monero section of the asb config. -/
structure Monero where
  wallet_rpc_url : List Char
  wallet_name : List Char
  wallet_password : List Char
deriving DecidableEq

/-- The asb Config of src/swap/src/asb/config.rs: the four sections in
declaration order. -/
structure Config where
  data : Data
  network : Network
  bitcoin : Bitcoin
  monero : Monero
deriving DecidableEq

/-- TOML header and key text preceding the data.dir value. -/
def hdrData : List Char := String.toList "[data]\ndir = \""

/-- TOML header and key text preceding the network.listen value. -/
def hdrNetwork : List Char := String.toList "\n\n[network]\nlisten = \""

/-- TOML header and key text preceding the bitcoin.electrum_rpc_url value. -/
def hdrBitcoin : List Char := String.toList "\n\n[bitcoin]\nelectrum_rpc_url = \""

/-- TOML header and key text preceding the monero.wallet_rpc_url value. -/
def hdrMonero : List Char := String.toList "\n\n[monero]\nwallet_rpc_url = \""

/-- TOML key text preceding the monero.wallet_name value. -/
def hdrWalletName : List Char := String.toList "\nwallet_name = \""

/-- TOML key text preceding the monero.wallet_password value. -/
def hdrWalletPassword : List Char := String.toList "\nwallet_password = \""

/-- Trailing newline of the rendered TOML document. -/
def trailer : List Char := String.toList "\n"

/-- Modelled from the spec: the toml::to_string rendering of a Config used
by initial_setup (the serde/toml serializer is an external crate, not part
of src/); the spec states that Config serialize/deserialize is the identity
on the value space.  The four sections are rendered in declaration order as
TOML tables of basic strings with standard escaping. -/
def encodeConfig (c : Config) : List Char :=
  hdrData ++ (escapeStr c.data.dir ++ (qc ::
    (hdrNetwork ++ (escapeStr c.network.listen ++ (qc ::
      (hdrBitcoin ++ (escapeStr c.bitcoin.electrum_rpc_url ++ (qc ::
        (hdrMonero ++ (escapeStr c.monero.wallet_rpc_url ++ (qc ::
          (hdrWalletName ++ (escapeStr c.monero.wallet_name ++ (qc ::
            (hdrWalletPassword ++ (escapeStr c.monero.wallet_password ++ (qc ::
              trailer)))))))))))))))))

/-- Modelled from the spec: the config::File TOML reader used by
Config::read (an external crate, not part of src/), inverse of
encodeConfig: consume each header, read each basic string, and require the
trailing newline. -/
def decodeConfig (input : List Char) : Option Config :=
  match dropLit hdrData input with
  | Option.none => Option.none
  | Option.some r1 =>
  match parseBasicStr r1 with
  | Option.none => Option.none
  | Option.some p1 =>
  match dropLit hdrNetwork p1.2 with
  | Option.none => Option.none
  | Option.some r2 =>
  match parseBasicStr r2 with
  | Option.none => Option.none
  | Option.some p2 =>
  match dropLit hdrBitcoin p2.2 with
  | Option.none => Option.none
  | Option.some r3 =>
  match parseBasicStr r3 with
  | Option.none => Option.none
  | Option.some p3 =>
  match dropLit hdrMonero p3.2 with
  | Option.none => Option.none
  | Option.some r4 =>
  match parseBasicStr r4 with
  | Option.none => Option.none
  | Option.some p4 =>
  match dropLit hdrWalletName p4.2 with
  | Option.none => Option.none
  | Option.some r5 =>
  match parseBasicStr r5 with
  | Option.none => Option.none
  | Option.some p5 =>
  match dropLit hdrWalletPassword p5.2 with
  | Option.none => Option.none
  | Option.some r6 =>
  match parseBasicStr r6 with
  | Option.none => Option.none
  | Option.some p6 =>
  if p6.2 = trailer then
    Option.some
      { data := ⟨p1.1⟩
      , network := ⟨p2.1⟩
      , bitcoin := ⟨p3.1⟩
      , monero := ⟨p4.1, p5.1, p6.1⟩ }
  else Option.none

/-- Decoding inverts encoding on every Config value. -/
theorem decodeConfig_encodeConfig (c : Config) :
    decodeConfig (encodeConfig c) = Option.some c := by
  simp [decodeConfig, encodeConfig, dropLit_append, parseBasicStr_escape]

/-- The filesystem seen by the config functions: a stack of path-content
pairs, most recent write first. -/
abbrev FileSystem := List (Nat × List Char)

/-- Write a file, shadowing any earlier content at the same path. -/
def fsWrite (path : Nat) (content : List Char) (fs : FileSystem) : FileSystem :=
  (path, content) :: fs

/-- Read a file if it exists. -/
def fsRead (path : Nat) : FileSystem → Option (List Char)
  | [] => Option.none
  | (p, content) :: fs => if p = path then Option.some content else fsRead path fs

/-- Errors of the config functions: the user-supplied closure failed, or the
file content failed to parse. -/
inductive ConfigErr where
  | mkFailed (code : Nat)
  | parseFailed
deriving DecidableEq

/-- The config-not-initialized marker returned when the file is missing. -/
inductive ConfigNotInitialized where
  | mk
deriving DecidableEq

/-- Shallow embedding of read_config from src/swap/src/asb/config.rs: a
missing file yields Ok(Err(ConfigNotInitialized)), an unparsable file is an
error, otherwise the parsed Config. -/
def read_config (path : Nat) (fs : FileSystem) :
    Except ConfigErr (Except ConfigNotInitialized Config) :=
  match fsRead path fs with
  | Option.none => Except.ok (Except.error ConfigNotInitialized.mk)
  | Option.some content =>
      match decodeConfig content with
      | Option.none => Except.error ConfigErr.parseFailed
      | Option.some c => Except.ok (Except.ok c)

/-- Shallow embedding of initial_setup from src/swap/src/asb/config.rs: run
the config-producing closure, serialize the result to TOML and write it to
the path. -/
def initial_setup (path : Nat) (configFile : Except ConfigErr Config)
    (fs : FileSystem) : Except ConfigErr FileSystem :=
  match configFile with
  | Except.error e => Except.error e
  | Except.ok c => Except.ok (fsWrite path (encodeConfig c) fs)

/-- Claim C10: writing any Config with initial_setup and reading the same
path back with read_config returns an equal Config. -/
theorem config_roundtrip (path : Nat) (c : Config) (fs : FileSystem) :
    ∃ fs2, initial_setup path (Except.ok c) fs = Except.ok fs2 ∧
      read_config path fs2 = Except.ok (Except.ok c) := by
  refine ⟨fsWrite path (encodeConfig c) fs, rfl, ?_⟩
  simp [read_config, fsRead, fsWrite, decodeConfig_encodeConfig]

end XmrBtcSwap
